import Mathlib

/-!
Shallow embedding of the `download-and-patch-fonts` scripts (`lib.py`,
`main.py`, `clone_nerd_fonts_repo.py`).

External effects (HTTP requests, downloads, subprocess invocations,
filesystem mutation) are modelled explicitly: the release API is an
`ApiResult` value passed in, `sys.exit` becomes the `Outcome.exit`
constructor, and side-effecting stages produce lists of action values
that record exactly which external commands would run.
-/

/-- Python's `s.find(pat) != -1` prefix test helper: does `pat` occur at the
head of `l`? -/
def isPre : List Char → List Char → Bool
  | [], _ => true
  | _ :: _, [] => false
  | a :: as, b :: bs => a == b && isPre as bs

/-- Does `pat` occur as a contiguous substring of `s`?  This is exactly the
truth value of Python's `s.find(pat) != -1`. -/
def containsSub (pat : List Char) : List Char → Bool
  | [] => isPre pat []
  | c :: t => isPre pat (c :: t) || containsSub pat t

/-- `strFind s pat` models Python's `s.find(pat) != -1` (exact,
case-sensitive, unanchored substring occurrence). -/
def strFind (s pat : String) : Bool := containsSub pat.data s.data

/-- Result of a computation that may call `sys.exit` (modelled as `exit`)
or produce a value. -/
inductive Outcome (α : Type) where
  | exit : Outcome α
  | value : α → Outcome α
deriving DecidableEq

/-- What one GET to the release API's latest-release endpoint yields:
either a parsed JSON body (its `tag_name` and the `name` of each entry of
its `assets` array, in the order the API lists them), or an HTTP error
whose `str(err)` is `msg`. -/
inductive ApiResult where
  | ok (tagName : String) (assets : List String)
  | httpError (msg : String)
deriving DecidableEq

/-- `lib.py` `FontMetadata` (same fields as the `main.py` metadata dicts). -/
structure FontMetadata where
  owner : String
  repo : String
  tag : String
  filename : String
  filename_start_with : String
  download_url : String
deriving DecidableEq

/-- `Font.get_tag` from `lib.py` lines 121-144: returns the response's
`tag_name`; on `HTTP Error 401: Unauthorized` logs and exits; any other
HTTP error falls through to `return "none"`.  Each call issues exactly one
release-API request. -/
def get_tag (api : ApiResult) : Outcome String :=
  match api with
  | ApiResult.ok tagName _ => Outcome.value tagName
  | ApiResult.httpError msg =>
    if msg = "HTTP Error 401: Unauthorized" then Outcome.exit
    else Outcome.value "none"

/-- `Font.get_filename` from `lib.py` lines 146-175: if the release has
exactly one asset return its name unconditionally; otherwise scan the
assets in listed order and return the first whose name contains
`filename_start_with` as a substring; fall through to `return "none"`
when no asset matches or on a non-401 HTTP error; exit on 401.  Each call
issues exactly one release-API request.  (The `headD` default is dead
code: it is only read when `assets.length = 1`.) -/
def get_filename (api : ApiResult) (filename_start_with : String) : Outcome String :=
  match api with
  | ApiResult.ok _ assets =>
    if assets.length = 1 then
      Outcome.value (assets.headD "")
    else
      match assets.find? (fun a => strFind a filename_start_with) with
      | some a => Outcome.value a
      | none => Outcome.value "none"
  | ApiResult.httpError msg =>
    if msg = "HTTP Error 401: Unauthorized" then Outcome.exit
    else Outcome.value "none"

/-- The fields a constructed `Font` instance ends up with. -/
structure Font where
  owner : String
  repo : String
  tag : String
  filename : String
  download_url : String
deriving DecidableEq

/-- Python's short-circuiting `x or self.call()` on strings, where
`call` is an API-querying method: the empty string is the only falsy
string, so `call` runs iff `x = ""`.  The `Nat` counts how many
release-API requests this evaluation issued (each method call issues
exactly one). -/
def orElseCall (x : String) (call : Outcome String) : Outcome (String × Nat) :=
  if x = "" then
    match call with
    | Outcome.exit => Outcome.exit
    | Outcome.value v => Outcome.value (v, 1)
  else Outcome.value (x, 0)

/-- `Font.__init__` from `lib.py` lines 99-119 (identical logic in
`main.py` lines 31-43):
`self.tag = metadata.tag or self.get_tag()`, then
`self.filename = metadata.filename or self.get_filename(metadata.filename_start_with)`,
then `self.download_url = metadata.download_url or <constructed URL>`.
The returned `Nat` counts the release-API requests issued. -/
def Font.init (md : FontMetadata) (api : ApiResult) : Outcome (Font × Nat) :=
  match orElseCall md.tag (get_tag api) with
  | Outcome.exit => Outcome.exit
  | Outcome.value (tag, n1) =>
    match orElseCall md.filename (get_filename api md.filename_start_with) with
    | Outcome.exit => Outcome.exit
    | Outcome.value (filename, n2) =>
      Outcome.value
        ({ owner := md.owner, repo := md.repo, tag := tag, filename := filename,
           download_url :=
             if md.download_url = "" then
               "https://github.com/" ++ md.owner ++ "/" ++ md.repo ++
                 "/releases/download/" ++ tag ++ "/" ++ filename
             else md.download_url }, n1 + n2)

/-- `TEMP_DIR` of `lib.py` line 46 on a POSIX host (`main.py` hard-codes
`TEMP_DIR = "/tmp/fonts"`, the same scratch directory). -/
def TEMP_DIR : String := "/tmp"

/-- `TEMP_DIR_FONTS = os.path.join(TEMP_DIR, "fonts")` from `lib.py`
line 56, evaluated on a POSIX host. -/
def TEMP_DIR_FONTS : String := TEMP_DIR ++ "/fonts"

/-- URL of the nerd-fonts repository, `lib.py` line 43. -/
def URL_NF_REPO : String := "https://github.com/ryanoasis/nerd-fonts.git"

/-- `is_ttf_or_otf` from `lib.py` lines 327-337:
`filename.find(".ttf") != -1 or filename.find(".otf") != -1`. -/
def is_ttf_or_otf (filename : String) : Bool :=
  strFind filename ".ttf" || strFind filename ".otf"

/-- `is_ttf` from `main.py` lines 175-177: `filename.find(".ttf") != -1`. -/
def is_ttf (filename : String) : Bool :=
  strFind filename ".ttf"

/-- One external effect of the fetcher loop body. -/
inductive FetchAction where
  | download (url dest : String)
  | unzip (archive dest : String)
deriving DecidableEq

/-- Effects of one iteration of the loop of `download_and_extract_fonts`
in `lib.py` lines 358-383, for an already-constructed `Font`: download the
URL into the scratch directory, then — unless `is_ttf_or_otf` classifies
the filename as an already-usable font (`continue`) — run
`unzip -q <archive> -d <scratch>/<repo>`. -/
def fetch_actions_for (font : Font) : List FetchAction :=
  FetchAction.download font.download_url (TEMP_DIR_FONTS ++ "/" ++ font.filename) ::
    (if is_ttf_or_otf font.filename then []
     else
       [FetchAction.unzip (TEMP_DIR_FONTS ++ "/" ++ font.filename)
          (TEMP_DIR_FONTS ++ "/" ++ font.repo)])

/-- `TtfOtf` dataclass from `lib.py` lines 178-191 (a StagedFontFile). -/
structure TtfOtf where
  path : String
  enable_stylistic_sets : Bool
  stylistic_sets : String
deriving DecidableEq

/-- One observable step of `apply_stylistic_sets`. -/
inductive FreezeAction where
  | warning (path : String)
  | featfreeze (features input output : String)
deriving DecidableEq

/-- Effects of one iteration of `apply_stylistic_sets` in `lib.py`
lines 393-423 on one entry: nothing when `enable_stylistic_sets` is
false; otherwise expand the glob (`globMatches` is the environment's
`glob.glob`, returning the list of matches), warn and skip when it is
empty, else run `pyftfeatfreeze -f <stylistic_sets> <path> <path>` on the
first match (in-place rewrite). -/
def freeze_actions_for (globMatches : String → List String) (file : TtfOtf) :
    List FreezeAction :=
  if file.enable_stylistic_sets then
    match globMatches file.path with
    | [] => [FreezeAction.warning file.path]
    | p :: _ => [FreezeAction.featfreeze file.stylistic_sets p p]
  else []

/-- `apply_stylistic_sets` from `lib.py` lines 386-423: the whole loop,
as the concatenated per-entry effects.  The function is total: no branch
calls `sys.exit`, matching the source. -/
def apply_stylistic_sets (globMatches : String → List String) :
    List TtfOtf → List FreezeAction
  | [] => []
  | file :: rest =>
    freeze_actions_for globMatches file ++ apply_stylistic_sets globMatches rest

/-- One external effect of the repository preparer of `lib.py`. -/
inductive PrepAction where
  | gitClone (url dest : String)
  | gitSparseCheckoutAdd (dirs : List String)
  | gitCheckout (tag : String)
  | makedirs (path : String)
deriving DecidableEq

/-- Result of the preparer: either it called `sys.exit(1)` or it ran to
completion; `performed` records the external actions that were issued
before stopping (in order). -/
inductive PrepResult where
  | exited (performed : List PrepAction)
  | completed (performed : List PrepAction)
deriving DecidableEq

/-- `clone_nerd_fonts_repo` from `lib.py` lines 252-324 (same structure
as `clone_nerd_fonts_repo.py` lines 59-107): if the destination exists
and `os.listdir` returns a non-empty list, log an error and
`sys.exit(1)` before any other action; otherwise clone, configure the
sparse checkout, check out the tag and create the two working
directories.  `destExists`/`destContents` model `os.path.exists` and
`os.listdir` on the destination. -/
def clone_nerd_fonts_repo (destExists : Bool) (destContents : List String)
    (dest_dir tag : String) : PrepResult :=
  if destExists ∧ 0 < destContents.length then PrepResult.exited []
  else
    PrepResult.completed
      [PrepAction.gitClone URL_NF_REPO dest_dir,
       PrepAction.gitSparseCheckoutAdd ["bin", "css", "src/glyphs", "src/svgs"],
       PrepAction.gitCheckout tag,
       PrepAction.makedirs (dest_dir ++ "/patched-fonts"),
       PrepAction.makedirs (dest_dir ++ "/src/unpatched-fonts")]

/-- One external effect of `clone_nerd_fonts_repo` from `main.py`. -/
inductive MainPrepAction where
  | rmtree (path : String)
  | gitClone (url dest : String)
  | gitSparseCheckoutAdd (dirs : List String)
  | makedirs (path : String)
deriving DecidableEq

/-- `clone_nerd_fonts_repo` from `main.py` lines 89-131: create
`$HOME/Programs` if missing, unconditionally `shutil.rmtree` any
pre-existing `$HOME/Programs/nerd-fonts` (its contents are never
inspected), then clone, configure the sparse checkout and create the two
working directories.  It never exits. -/
def main_clone_nerd_fonts_repo (home : String)
    (programsExists nerdFontsExists : Bool) : List MainPrepAction :=
  (if programsExists then [] else [MainPrepAction.makedirs (home ++ "/Programs")]) ++
    (if nerdFontsExists then [MainPrepAction.rmtree (home ++ "/Programs/nerd-fonts")]
     else []) ++
    [MainPrepAction.gitClone URL_NF_REPO (home ++ "/Programs/nerd-fonts"),
     MainPrepAction.gitSparseCheckoutAdd ["bin", "css", "src/glyphs", "src/svgs"],
     MainPrepAction.makedirs (home ++ "/Programs/nerd-fonts/patched-fonts"),
     MainPrepAction.makedirs (home ++ "/Programs/nerd-fonts/src/unpatched-fonts")]

/-- State of the scratch directory (`/tmp/fonts`): whether the directory
exists and which paths it holds. -/
structure ScratchState where
  present : Bool
  files : List String
deriving DecidableEq

/-- Environment of one `main.py` run: the release-API response and
whether `urllib.request.urlretrieve` succeeds for a given URL (an
uncaught download exception terminates the script, so the run does not
complete). -/
structure PipelineEnv where
  api : ApiResult
  fetchOk : String → Bool

/-- The per-font loop of `download_and_extract_fonts` in `main.py`
lines 187-214, tracking its effect on the scratch directory: a `.ttf`
download goes straight into the working tree (scratch unchanged); any
other download lands in the scratch directory and is then unzipped into
`<scratch>/<repo>`. -/
def main_download_loop (env : PipelineEnv) :
    List FontMetadata → ScratchState → Outcome ScratchState
  | [], s => Outcome.value s
  | md :: rest, s =>
    match Font.init md env.api with
    | Outcome.exit => Outcome.exit
    | Outcome.value (font, _) =>
      if env.fetchOk font.download_url then
        if is_ttf font.filename then
          main_download_loop env rest s
        else
          main_download_loop env rest
            { s with
              files := s.files ++ ["/tmp/fonts/" ++ font.filename,
                "/tmp/fonts/" ++ font.repo] }
      else Outcome.exit

/-- `download_and_extract_fonts` from `main.py` lines 180-214: delete the
scratch directory if it already exists, recreate it empty, then run the
per-font loop. -/
def main_download_and_extract_fonts (env : PipelineEnv) (fonts : List FontMetadata)
    (s : ScratchState) : Outcome ScratchState :=
  let s0 : ScratchState := if s.present then { present := false, files := [] } else s
  main_download_loop env fonts { present := true, files := s0.files }

/-- Scratch-directory effect of the `main.py` top-level script (lines
134-325): clone (no scratch effect), `download_and_extract_fonts`,
`apply_stylistic_sets` and `copy_and_paste_fonts` (in-place rewrites and
copies out of scratch: neither creates nor deletes scratch entries),
then `shutil.rmtree(TEMP_DIR)` at line 293, then `path_fonts` (reads the
working tree only).  The run completes only if no stage called
`sys.exit` or raised. -/
def main_run (env : PipelineEnv) (fonts : List FontMetadata) (s : ScratchState) :
    Outcome ScratchState :=
  match main_download_and_extract_fonts env fonts s with
  | Outcome.exit => Outcome.exit
  | Outcome.value _ => Outcome.value { present := false, files := [] }

/-! ### Helper lemmas -/

theorem string_data_append (a b : String) : (a ++ b).data = a.data ++ b.data := by
  cases a
  cases b
  rfl

theorem isPre_append_self (pat rest : List Char) : isPre pat (pat ++ rest) = true := by
  induction pat with
  | nil => rfl
  | cons c cs ih => simp [isPre, ih]

theorem containsSub_of_isPre (pat l : List Char) (h : isPre pat l = true) :
    containsSub pat l = true := by
  cases l with
  | nil => simpa [containsSub] using h
  | cons c t => simp [containsSub, h]

theorem containsSub_append (pat pre rest : List Char) :
    containsSub pat (pre ++ pat ++ rest) = true := by
  induction pre with
  | nil => exact containsSub_of_isPre _ _ (isPre_append_self pat rest)
  | cons x xs ih =>
    show containsSub pat (x :: (xs ++ pat ++ rest)) = true
    simp only [containsSub, Bool.or_eq_true]
    exact Or.inr ih

theorem find?_first {α : Type} (p : α → Bool) (pre : List α) (a : α) (post : List α)
    (hpre : ∀ b ∈ pre, p b = false) (ha : p a = true) :
    (pre ++ a :: post).find? p = some a := by
  induction pre with
  | nil => simp [List.find?_cons, ha]
  | cons x xs ih =>
    have hx : p x = false := hpre x (List.mem_cons_self _ _)
    rw [List.cons_append, List.find?_cons_of_neg _ (by simp [hx])]
    exact ih (fun b hb => hpre b (List.mem_cons_of_mem _ hb))

theorem orElseCall_count (x : String) (c : Outcome String) (v : String) (n : Nat)
    (h : orElseCall x c = Outcome.value (v, n)) :
    n = if x = "" then 1 else 0 := by
  unfold orElseCall at h
  by_cases hx : x = ""
  · rw [if_pos hx] at h
    rw [if_pos hx]
    cases c with
    | exit => simp at h
    | value w =>
      simp only [Outcome.value.injEq, Prod.mk.injEq] at h
      exact h.2.symm
  · rw [if_neg hx] at h
    rw [if_neg hx]
    simp only [Outcome.value.injEq, Prod.mk.injEq] at h
    exact h.2.symm

/-! ### Claims -/

/-- Claim C1 (corrected), counterexample to the claim as stated: the
comic-mono entry of `main.py` has a non-empty `download_url` but an empty
`tag`, and constructing its `Font` issues one release-API request
(`get_tag` runs), because `self.tag = metadata.tag or self.get_tag()` is
evaluated before `download_url` is consulted.  The request count `1`
refutes "never issues a release-API request". -/
theorem C1_counterexample :
    (FontMetadata.mk "dtinth" "comic-mono-font" "" "ComicMono.ttf" ""
        "https://dtinth.github.io/comic-mono-font/ComicMono.ttf").download_url ≠ "" ∧
    Font.init
        (FontMetadata.mk "dtinth" "comic-mono-font" "" "ComicMono.ttf" ""
          "https://dtinth.github.io/comic-mono-font/ComicMono.ttf")
        (ApiResult.ok "v1.0" ["asset-a", "asset-b"]) =
      Outcome.value
        (Font.mk "dtinth" "comic-mono-font" "v1.0" "ComicMono.ttf"
          "https://dtinth.github.io/comic-mono-font/ComicMono.ttf", 1) ∧
    (1 : Nat) ≠ 0 := by
  decide

/-- Claim C1 (amended): when `download_url` is non-empty it is used
verbatim as the constructed font's download URL; however the release API
is still queried — exactly once for `get_tag` when `tag` is empty and
exactly once for `get_filename` when `filename` is empty. -/
theorem C1_url_verbatim_api_still_queried (md : FontMetadata) (api : ApiResult)
    (f : Font) (n : Nat) (hurl : md.download_url ≠ "")
    (h : Font.init md api = Outcome.value (f, n)) :
    f.download_url = md.download_url ∧
    n = (if md.tag = "" then 1 else 0) + (if md.filename = "" then 1 else 0) := by
  unfold Font.init at h
  cases h1 : orElseCall md.tag (get_tag api) with
  | exit =>
    rw [h1] at h
    exact absurd h (by simp)
  | value tn =>
    obtain ⟨tag, n1⟩ := tn
    rw [h1] at h
    cases h2 : orElseCall md.filename (get_filename api md.filename_start_with) with
    | exit =>
      rw [h2] at h
      exact absurd h (by simp)
    | value fn2 =>
      obtain ⟨filename, n2⟩ := fn2
      rw [h2] at h
      simp only [Outcome.value.injEq, Prod.mk.injEq] at h
      obtain ⟨hfont, hn⟩ := h
      constructor
      · rw [← hfont]
        simp [if_neg hurl]
      · rw [← hn, orElseCall_count _ _ _ _ h1, orElseCall_count _ _ _ _ h2]

/-- Claim C1 witness: the amended theorem applied to the comic-mono
entry with a two-asset API response; the verbatim URL is kept and
exactly one request is issued (for the empty `tag`). -/
theorem C1_witness :
    (Font.mk "dtinth" "comic-mono-font" "v1.0" "ComicMono.ttf"
        "https://dtinth.github.io/comic-mono-font/ComicMono.ttf").download_url =
      (FontMetadata.mk "dtinth" "comic-mono-font" "" "ComicMono.ttf" ""
        "https://dtinth.github.io/comic-mono-font/ComicMono.ttf").download_url ∧
    1 = (if (FontMetadata.mk "dtinth" "comic-mono-font" "" "ComicMono.ttf" ""
          "https://dtinth.github.io/comic-mono-font/ComicMono.ttf").tag = "" then 1
        else 0) +
      (if (FontMetadata.mk "dtinth" "comic-mono-font" "" "ComicMono.ttf" ""
          "https://dtinth.github.io/comic-mono-font/ComicMono.ttf").filename = "" then 1
        else 0) :=
  C1_url_verbatim_api_still_queried
    (FontMetadata.mk "dtinth" "comic-mono-font" "" "ComicMono.ttf" ""
      "https://dtinth.github.io/comic-mono-font/ComicMono.ttf")
    (ApiResult.ok "v1.0" ["asset-a", "asset-b"])
    (Font.mk "dtinth" "comic-mono-font" "v1.0" "ComicMono.ttf"
      "https://dtinth.github.io/comic-mono-font/ComicMono.ttf")
    1 (by decide) (by decide)

/-- Claim C2: with two or more assets, `get_filename` returns the first
asset, in API-listed order, whose name contains `filename_start_with` as
a substring (exact, unanchored, not case-normalized), and returns the
sentinel `"none"` when no asset name contains it. -/
theorem C2_first_matching_asset (tagName sw : String) (assets : List String)
    (h2 : 2 ≤ assets.length) :
    (∀ pre a post, assets = pre ++ a :: post → strFind a sw = true →
      (∀ b ∈ pre, strFind b sw = false) →
      get_filename (ApiResult.ok tagName assets) sw = Outcome.value a) ∧
    ((∀ a ∈ assets, strFind a sw = false) →
      get_filename (ApiResult.ok tagName assets) sw = Outcome.value "none") := by
  have hlen : ¬ assets.length = 1 := by omega
  constructor
  · intro pre a post heq hmatch hpre
    have hfind : assets.find? (fun b => strFind b sw) = some a := by
      rw [heq]
      exact find?_first _ pre a post hpre hmatch
    simp only [get_filename]
    rw [if_neg hlen, hfind]
  · intro hnone
    have hfind : assets.find? (fun b => strFind b sw) = none :=
      List.find?_eq_none.mpr (fun a ha => by simp [hnone a ha])
    simp only [get_filename]
    rw [if_neg hlen, hfind]

/-- Claim C2 witness: among `["FiraCode.zip", "ttf-iosevka-fixed-31.zip",
"ttf-iosevka-31.zip"]` the selector `"ttf-iosevka-fixed-"` picks the
first (and here unique) containing name; a selector contained in no name
yields `"none"`. -/
theorem C2_witness :
    get_filename
        (ApiResult.ok "v31"
          ["FiraCode.zip", "ttf-iosevka-fixed-31.zip", "ttf-iosevka-31.zip"])
        "ttf-iosevka-fixed-" =
      Outcome.value "ttf-iosevka-fixed-31.zip" :=
  (C2_first_matching_asset "v31" "ttf-iosevka-fixed-"
      ["FiraCode.zip", "ttf-iosevka-fixed-31.zip", "ttf-iosevka-31.zip"]
      (by decide)).1
    ["FiraCode.zip"] "ttf-iosevka-fixed-31.zip" ["ttf-iosevka-31.zip"]
    rfl (by decide) (by decide)

/-- Claim C3: with exactly one asset, `get_filename` returns that
asset's name unconditionally, for every `filename_start_with`, including
selectors that do not occur in the asset's name. -/
theorem C3_single_asset_unconditional (tagName a sw : String) :
    get_filename (ApiResult.ok tagName [a]) sw = Outcome.value a := by
  simp [get_filename]

/-- Claim C4: `is_ttf_or_otf` is true on `"X.ttf"` and `"X.otf"` and
false on `"X.zip"`; a filename it classifies as a font makes the fetcher
loop skip the unzip branch (`continue`), and a filename it rejects goes
through the unzip branch. -/
theorem C4_classifier_drives_branch (f : Font) :
    is_ttf_or_otf "X.ttf" = true ∧ is_ttf_or_otf "X.otf" = true ∧
    is_ttf_or_otf "X.zip" = false ∧
    (is_ttf_or_otf f.filename = true →
      ∀ a d, FetchAction.unzip a d ∉ fetch_actions_for f) ∧
    (is_ttf_or_otf f.filename = false →
      FetchAction.unzip (TEMP_DIR_FONTS ++ "/" ++ f.filename)
          (TEMP_DIR_FONTS ++ "/" ++ f.repo) ∈ fetch_actions_for f) := by
  refine ⟨by decide, by decide, by decide, ?_, ?_⟩
  · intro h a d hmem
    simp [fetch_actions_for, h] at hmem
  · intro h
    simp [fetch_actions_for, h]

/-- Claim C4 witness: a `.zip` font goes through the unzip branch; a
`.ttf` font never does. -/
theorem C4_witness :
    (is_ttf_or_otf "X.zip" = false ∧
      FetchAction.unzip (TEMP_DIR_FONTS ++ "/" ++ "X.zip")
          (TEMP_DIR_FONTS ++ "/" ++ "r") ∈
        fetch_actions_for (Font.mk "o" "r" "t" "X.zip" "u")) ∧
    (is_ttf_or_otf "X.ttf" = true ∧
      ∀ a d, FetchAction.unzip a d ∉
        fetch_actions_for (Font.mk "o" "r" "t" "X.ttf" "u")) :=
  ⟨⟨by decide,
    (C4_classifier_drives_branch (Font.mk "o" "r" "t" "X.zip" "u")).2.2.2.2 (by decide)⟩,
   ⟨by decide,
    (C4_classifier_drives_branch (Font.mk "o" "r" "t" "X.ttf" "u")).2.2.2.1 (by decide)⟩⟩

/-- Claim C5: if a whole `main.py` run completes (no stage exited), the
scratch directory `/tmp/fonts` no longer exists and retains no
downloaded or extracted file: `shutil.rmtree(TEMP_DIR)` runs before the
final patch stage. -/
theorem C5_scratch_removed_after_run (env : PipelineEnv) (fonts : List FontMetadata)
    (s0 s1 : ScratchState) (h : main_run env fonts s0 = Outcome.value s1) :
    s1.present = false ∧ s1.files = [] := by
  unfold main_run at h
  cases hd : main_download_and_extract_fonts env fonts s0 with
  | exit =>
    rw [hd] at h
    exact absurd h (by simp)
  | value s2 =>
    rw [hd] at h
    simp only [Outcome.value.injEq] at h
    rw [← h]
    exact ⟨rfl, rfl⟩

/-- Claim C5 witness: a completing run over one zip-asset font source,
starting from a stale scratch directory, ends with the scratch directory
absent and empty. -/
theorem C5_witness :
    main_run (PipelineEnv.mk (ApiResult.ok "v31" ["iosevka.zip", "other.zip"])
          (fun _ => true))
        [FontMetadata.mk "be5invis" "Iosevka" "" "" "iosevka" ""]
        (ScratchState.mk true ["/tmp/fonts/stale.zip"]) =
      Outcome.value (ScratchState.mk false []) ∧
    (ScratchState.mk false []).present = false ∧
    (ScratchState.mk false []).files = [] := by
  have h : main_run (PipelineEnv.mk (ApiResult.ok "v31" ["iosevka.zip", "other.zip"])
          (fun _ => true))
        [FontMetadata.mk "be5invis" "Iosevka" "" "" "iosevka" ""]
        (ScratchState.mk true ["/tmp/fonts/stale.zip"]) =
      Outcome.value (ScratchState.mk false []) := by decide
  exact ⟨h, C5_scratch_removed_after_run _ _ _ _ h⟩

/-- Claim C6 (corrected), counterexample to the claim as stated: the
`main.py` variant of `clone_nerd_fonts_repo`, run when the destination
`$HOME/Programs/nerd-fonts` already exists (with whatever contents — it
never inspects them), does not report an error and stop: it deletes the
destination outright and proceeds with the clone. -/
theorem C6_counterexample :
    MainPrepAction.rmtree "/home/u/Programs/nerd-fonts" ∈
      main_clone_nerd_fonts_repo "/home/u" true true ∧
    MainPrepAction.gitClone URL_NF_REPO "/home/u/Programs/nerd-fonts" ∈
      main_clone_nerd_fonts_repo "/home/u" true true := by
  decide

/-- Claim C6 (amended): the parameterized preparers (`lib.py` and
`clone_nerd_fonts_repo.py`) do satisfy the claim: for every destination
that exists and has at least one entry, they exit after logging, having
performed no clone, no sparse-checkout configuration, no checkout and no
directory creation, so the pre-existing contents are untouched; the
`main.py` variant instead deletes the pre-existing destination. -/
theorem C6_refuses_nonempty_destination (destContents : List String)
    (dest_dir tag : String) (h : destContents ≠ []) :
    clone_nerd_fonts_repo true destContents dest_dir tag = PrepResult.exited [] := by
  unfold clone_nerd_fonts_repo
  rw [if_pos]
  exact ⟨rfl, by cases destContents with
    | nil => exact absurd rfl h
    | cons x xs => simp⟩

/-- Claim C6 witness: a destination holding one leftover file makes the
`lib.py` preparer exit with no action performed. -/
theorem C6_witness :
    clone_nerd_fonts_repo true ["leftover.txt"] "/home/u/nerd-fonts" "v3.0.0" =
      PrepResult.exited [] :=
  C6_refuses_nonempty_destination ["leftover.txt"] "/home/u/nerd-fonts" "v3.0.0"
    (by decide)

/-- Claim C7: per StagedFontFile entry, the freezer performs no action
at all (so the file stays byte-identical) when `enable_stylistic_sets`
is false, and when it is true and the glob resolves it invokes
`pyftfeatfreeze` exactly once, with precisely the configured
comma-separated feature-tag string, with input path equal to output path
(in-place rewrite). -/
theorem C7_freezer_per_entry (g : String → List String) (file : TtfOtf)
    (p : String) (rest : List String) :
    (file.enable_stylistic_sets = false → freeze_actions_for g file = []) ∧
    (file.enable_stylistic_sets = true → g file.path = p :: rest →
      freeze_actions_for g file =
        [FreezeAction.featfreeze file.stylistic_sets p p]) := by
  constructor
  · intro h
    simp [freeze_actions_for, h]
  · intro h hg
    simp [freeze_actions_for, h, hg]

/-- Claim C7 witness: the FiraCode entry of `main.py` leads to exactly
one in-place `pyftfeatfreeze` call with its configured tag string. -/
theorem C7_witness :
    freeze_actions_for (fun _ => ["/tmp/fonts/FiraCode/ttf/FiraCode-Regular.ttf"])
        (TtfOtf.mk "/tmp/fonts/FiraCode/ttf/FiraCode-Regular.ttf" true
          "cv01,cv02,cv10,ss01,ss05") =
      [FreezeAction.featfreeze "cv01,cv02,cv10,ss01,ss05"
        "/tmp/fonts/FiraCode/ttf/FiraCode-Regular.ttf"
        "/tmp/fonts/FiraCode/ttf/FiraCode-Regular.ttf"] :=
  (C7_freezer_per_entry (fun _ => ["/tmp/fonts/FiraCode/ttf/FiraCode-Regular.ttf"])
      (TtfOtf.mk "/tmp/fonts/FiraCode/ttf/FiraCode-Regular.ttf" true
        "cv01,cv02,cv10,ss01,ss05")
      "/tmp/fonts/FiraCode/ttf/FiraCode-Regular.ttf" []).2 rfl rfl

/-- Claim C8: a freezing-enabled entry whose glob expands to no match is
logged as a warning and skipped — no exit, no tool invocation for it —
and every remaining entry is still processed exactly as it would be on
its own. -/
theorem C8_glob_miss_nonfatal (g : String → List String) (file : TtfOtf)
    (rest : List TtfOtf) (hen : file.enable_stylistic_sets = true)
    (hg : g file.path = []) :
    apply_stylistic_sets g (file :: rest) =
      FreezeAction.warning file.path :: apply_stylistic_sets g rest := by
  simp [apply_stylistic_sets, freeze_actions_for, hen, hg]

/-- Claim C8 witness: with a glob that matches nothing, the first
(enabled) entry yields only a warning and the second entry is still
processed. -/
theorem C8_witness :
    apply_stylistic_sets (fun _ => [])
        [TtfOtf.mk "/tmp/fonts/missing/CascadiaCode-Light.ttf" true "ss19",
         TtfOtf.mk "/tmp/fonts/Iosevka/iosevka-fixed-regular.ttf" false ""] =
      FreezeAction.warning "/tmp/fonts/missing/CascadiaCode-Light.ttf" ::
        apply_stylistic_sets (fun _ => [])
          [TtfOtf.mk "/tmp/fonts/Iosevka/iosevka-fixed-regular.ttf" false ""] :=
  C8_glob_miss_nonfatal (fun _ => [])
    (TtfOtf.mk "/tmp/fonts/missing/CascadiaCode-Light.ttf" true "ss19")
    [TtfOtf.mk "/tmp/fonts/Iosevka/iosevka-fixed-regular.ttf" false ""] rfl rfl

/-- Claim C9: the classifier tests `".ttf"`/`".otf"` as an unanchored
substring, not a suffix: any filename containing either anywhere (for
example `"archive.ttf.zip"`) is classified as a font, and such a file is
never passed to the unzip branch even when it is actually an archive. -/
theorem C9_substring_not_suffix (name : String) (f : Font) :
    (((∃ pre post : String, name = pre ++ ".ttf" ++ post) ∨
      (∃ pre post : String, name = pre ++ ".otf" ++ post)) →
      is_ttf_or_otf name = true) ∧
    (f.filename = name → is_ttf_or_otf name = true →
      ∀ a d, FetchAction.unzip a d ∉ fetch_actions_for f) ∧
    is_ttf_or_otf "archive.ttf.zip" = true := by
  refine ⟨?_, ?_, by decide⟩
  · rintro (⟨pre, post, rfl⟩ | ⟨pre, post, rfl⟩)
    · unfold is_ttf_or_otf strFind
      rw [string_data_append, string_data_append, containsSub_append]
      simp
    · unfold is_ttf_or_otf strFind
      rw [string_data_append, string_data_append, containsSub_append]
      simp
  · rintro rfl hc a d hmem
    simp [fetch_actions_for, hc] at hmem

/-- Claim C9 witness: `"archive.ttf.zip"` contains `".ttf"` in the
middle, is classified as a font, and its fetch skips the unzip branch
entirely. -/
theorem C9_witness :
    is_ttf_or_otf "archive.ttf.zip" = true ∧
    ∀ a d, FetchAction.unzip a d ∉
      fetch_actions_for (Font.mk "o" "r" "t" "archive.ttf.zip" "u") :=
  ⟨(C9_substring_not_suffix "archive.ttf.zip"
      (Font.mk "o" "r" "t" "archive.ttf.zip" "u")).1
    (Or.inl ⟨"archive", ".zip", by decide⟩),
   (C9_substring_not_suffix "archive.ttf.zip"
      (Font.mk "o" "r" "t" "archive.ttf.zip" "u")).2.1 rfl
    ((C9_substring_not_suffix "archive.ttf.zip"
        (Font.mk "o" "r" "t" "archive.ttf.zip" "u")).1
      (Or.inl ⟨"archive", ".zip", by decide⟩))⟩

/-- Claim C10: on any failure other than an HTTP 401 — a non-401 HTTP
error, or (with a non-singleton asset list) no asset name containing the
selector — `get_tag` and `get_filename` return the literal `"none"`
instead of signaling an error, and `Font.__init__` with empty `tag`,
`filename` and `download_url` then embeds the sentinel into the
constructed URL `.../releases/download/none/none`. -/
theorem C10_none_sentinel_in_url (msg tagName sw : String) (assets : List String)
    (md : FontMetadata) (h401 : msg ≠ "HTTP Error 401: Unauthorized") :
    get_tag (ApiResult.httpError msg) = Outcome.value "none" ∧
    get_filename (ApiResult.httpError msg) sw = Outcome.value "none" ∧
    (assets.length ≠ 1 → (∀ a ∈ assets, strFind a sw = false) →
      get_filename (ApiResult.ok tagName assets) sw = Outcome.value "none") ∧
    (md.tag = "" → md.filename = "" → md.download_url = "" →
      Font.init md (ApiResult.httpError msg) =
        Outcome.value
          (Font.mk md.owner md.repo "none" "none"
            ("https://github.com/" ++ md.owner ++ "/" ++ md.repo ++
              "/releases/download/none/none"), 2)) := by
  refine ⟨?_, ?_, ?_, ?_⟩
  · simp [get_tag, h401]
  · simp [get_filename, h401]
  · intro hlen hnone
    have hfind : assets.find? (fun b => strFind b sw) = none :=
      List.find?_eq_none.mpr (fun a ha => by simp [hnone a ha])
    simp only [get_filename]
    rw [if_neg hlen, hfind]
  · intro ht hf hu
    unfold Font.init orElseCall
    rw [ht, hf, hu]
    simp only [get_tag, get_filename, h401, if_neg, ite_false, if_pos, ite_true,
      Outcome.value.injEq, Prod.mk.injEq, Font.mk.injEq, and_true, true_and]
    apply String.ext
    simp only [string_data_append, List.append_assoc, List.append_cancel_left_eq]
    decide

/-- Claim C10 witness: a 404 on the release API, with every resolvable
field empty, yields the broken URL
`https://github.com/owner1/repo1/releases/download/none/none`. -/
theorem C10_witness :
    Font.init (FontMetadata.mk "owner1" "repo1" "" "" "sel" "")
        (ApiResult.httpError "HTTP Error 404: Not Found") =
      Outcome.value
        (Font.mk "owner1" "repo1" "none" "none"
          ("https://github.com/" ++ "owner1" ++ "/" ++ "repo1" ++
            "/releases/download/none/none"), 2) :=
  (C10_none_sentinel_in_url "HTTP Error 404: Not Found" "t" "sel" []
      (FontMetadata.mk "owner1" "repo1" "" "" "sel" "") (by decide)).2.2.2
    rfl rfl rfl
